import Mathlib

/-!
Shallow embedding of the HATA backend's prediction orchestration pipeline
(`src/routes/predictions.js`, `src/unnamed/part_001`, `src/unnamed/part_002`,
`src/models/User.js` (Prediction schema), `src/models/Feedback.js`).

Text is modelled as `List Char`, JS numbers as `ℚ`, Mongo documents as Lean
structures, and `Math.random()` as an explicit oracle `Nat → ℚ`.
-/

namespace Hata

/-! ## Text model: JS `trim`, `split(/\s+/)`, substring search -/

/-- Whitespace characters recognised by the JS `\s` class (ASCII part);
used both by `String.prototype.trim` and by `text.split(/\s+/)`. -/
def isWs (c : Char) : Bool :=
  c = ' ' || c = '\t' || c = '\n' || c = '\r' || c = '\x0b' || c = '\x0c'

/-- `String.prototype.trim`, as applied by the `body('text').trim()`
sanitizer in the predict route's validator chain. -/
def trimChars (s : List Char) : List Char :=
  ((s.dropWhile isWs).reverse.dropWhile isWs).reverse

/-- `text.split(/\s+/)` (src/routes/predictions.js line 70): split on maximal
whitespace runs; a leading or trailing run contributes an empty piece,
matching the JS regex-split semantics. -/
def splitWsGo : List Char → List Char → List (List Char)
  | [], cur => [cur.reverse]
  | c :: cs, cur =>
    if isWs c then cur.reverse :: splitWsGo (cs.dropWhile isWs) []
    else splitWsGo cs (c :: cur)
termination_by s _ => s.length
decreasing_by
  · exact Nat.lt_succ_of_le (List.dropWhile_sublist _).length_le
  · exact Nat.lt_succ_self _

def splitWs (s : List Char) : List (List Char) := splitWsGo s []

/-- Whether `small` occurs at the head of `big` (character-for-character). -/
def leadsList : List Char → List Char → Bool
  | [], _ => true
  | _ :: _, [] => false
  | a :: as, b :: bs => a == b && leadsList as bs

/-- JS `String.prototype.includes`: substring occurrence test, used by the
catch handler's `error.message.includes('timeout')`. -/
def containsSub (hay needle : List Char) : Bool :=
  hay.tails.any (fun t => leadsList needle t)

/-! ## Principals and the data model (src/models/User.js, Prediction schema) -/

/-- The caller identity resolved by the auth middleware: absent (anonymous)
or an authenticated user with an id.  Ids abstract Mongo ObjectIds. -/
inductive Principal where
  | anon
  | auth (id : Nat)
deriving DecidableEq

/-- `req.user?._id`: the optional owner id attached to a request. -/
def principalId : Principal → Option Nat
  | .anon => none
  | .auth i => some i

/-- The `prediction` sub-document built by the predict route
(src/routes/predictions.js lines 90-97). -/
structure PredOut where
  label : Nat
  labelText : String
  confidence : ℚ
  probabilities : List ℚ
deriving DecidableEq

/-- The `explanation` object built by the predict route
(src/routes/predictions.js lines 71-76). -/
structure Explanation where
  tokens : List (List Char)
  importances : List ℚ
  method : String
  status : String
deriving DecidableEq

/-- The `biasScore` object built by the predict route
(src/routes/predictions.js lines 79-84): keys `gender`, `ethnic`,
`religious`, `overall`. -/
structure BiasOut where
  gender : ℚ
  ethnic : ℚ
  religious : ℚ
  overall : ℚ
deriving DecidableEq

/-- The `metadata` sub-document (src/routes/predictions.js lines 102-107). -/
structure RecMetadata where
  ipAddress : String
  userAgent : String
  processingTime : Nat
  source : String
deriving DecidableEq

/-- The `feedback` sub-document attached to a Prediction by the feedback
route (src/unnamed/part_002 lines 57-62; schema src/models/User.js
lines 200-212). -/
structure FeedbackAttach where
  rating : Int
  correctLabel : Option Int
  comment : Option (List Char)
  submittedAt : Nat
deriving DecidableEq

/-- A persisted Prediction document (src/models/User.js lines 119-230).
`timestamp` is the creation time (schema default `Date.now`). -/
structure Record where
  id : Nat
  text : List Char
  language : String
  prediction : PredOut
  explanation : Explanation
  biasScore : BiasOut
  userId : Option Nat
  feedback : Option FeedbackAttach
  metadata : RecMetadata
  timestamp : Nat
deriving DecidableEq

/-! ## Request validation (src/routes/predictions.js lines 23-25) -/

/-- The supported language codes: `body('language').isIn(['ha','yo','ig','pcm'])`. -/
def supportedLanguages : List String := ["ha", "yo", "ig", "pcm"]

structure PredictReq where
  text : List Char
  language : String

/-- `body('text').trim().isLength({min 1, max 50000})`: the sanitizer trims,
then the trimmed length must be between 1 and 50000. -/
def validText (t : List Char) : Bool :=
  1 ≤ (trimChars t).length && (trimChars t).length ≤ 50000

def validLanguage (l : String) : Bool := supportedLanguages.contains l

/-! ## Backend call and failure classification -/

/-- One entry of the Hugging Face response array:
`[[{"label": "LABEL_0", "score": 0.99}, ...]]`. -/
structure LabelScore where
  label : String
  score : ℚ
deriving DecidableEq

/-- A transport/HTTP failure thrown by axios: the optional `error.code`
and the `error.message`. -/
structure TransportError where
  code : Option String
  message : List Char

/-- The raw outcome of the single backend call: a parsed response body or a
thrown error. -/
inductive BackendCall where
  | success (results : List LabelScore)
  | failure (err : TransportError)

/-- The catch handler's status mapping (src/routes/predictions.js lines
134-152): `ECONNREFUSED` → 503, then `ECONNABORTED` or a message containing
`'timeout'` → 504, anything else → 500. -/
def mapPredictError (e : TransportError) : Nat :=
  if e.code = some "ECONNREFUSED" then 503
  else if e.code = some "ECONNABORTED" ∨ containsSub e.message ("timeout".toList) = true then 504
  else 500

/-! ## Normalization of the Hugging Face response (lines 58-97) -/

/-- `results.sort((a,b) => b.score - a.score)[0]`: the first element of
maximal score (V8's sort is stable, so ties keep the earlier element);
`none` when the array is empty. -/
def topByScore (l : List LabelScore) : Option LabelScore :=
  l.foldl
    (fun acc x =>
      match acc with
      | none => some x
      | some m => if m.score < x.score then some x else acc)
    none

/-- Lines 63-64 and 90-97: `LABEL_1` maps to class 1, anything else to 0;
`probabilities := [class == 0 ? conf : 1-conf, class == 1 ? conf : 1-conf]`. -/
def hfPrediction (top : LabelScore) : PredOut :=
  let cls : Nat := if top.label = "LABEL_1" then 1 else 0
  { label := cls
    labelText := if cls = 1 then "AI-generated" else "Human-written"
    confidence := top.score
    probabilities :=
      [if cls = 0 then top.score else 1 - top.score,
       if cls = 1 then top.score else 1 - top.score] }

/-- Lines 70-76: fallback explanation. `rand` models the successive draws of
`Math.random()`; each importance is `Math.random() * 0.5 + 0.2`. -/
def mkExplanation (text : List Char) (rand : Nat → ℚ) : Explanation :=
  let tokens := (splitWs text).take 50
  { tokens := tokens
    importances := (List.range tokens.length).map (fun i => rand i * (1/2) + 1/5)
    method := "simple-attribution"
    status := "inference-api-mode" }

/-- Lines 79-84: fallback bias score, three `Math.random() * 0.1` draws and
a constant `overall = 0.05`. -/
def mkBiasScore (rand : Nat → ℚ) : BiasOut :=
  { gender := rand 0 * (1/10)
    ethnic := rand 1 * (1/10)
    religious := rand 2 * (1/10)
    overall := 1/20 }

/-! ## The predict handler (src/routes/predictions.js lines 23-154) -/

/-- Per-request ambient data: the `Math.random()` oracle (explanation draws
use indices `expRand`, bias draws `biasRand`), the id the store assigns,
the measured processing time, request metadata and the wall clock. -/
structure PredictEnv where
  expRand : Nat → ℚ
  biasRand : Nat → ℚ
  newId : Nat
  processingTime : Nat
  ip : String
  userAgent : String
  now : Nat

/-- The full predict route handler on the Hugging Face variant, as a state
transformer on the list of persisted records.  Returns the HTTP status and
the post-state.  An empty results array makes `results.sort(...)[0]`
undefined and the subsequent property access throw, which the catch handler
maps to 500 (its message mentions no timeout and carries no code). -/
def handlePredict (req : PredictReq) (princ : Principal) (call : BackendCall)
    (env : PredictEnv) (store : List Record) : Nat × List Record :=
  if ¬(validText req.text && validLanguage req.language) then (400, store)
  else
    match call with
    | .failure e => (mapPredictError e, store)
    | .success results =>
      match topByScore results with
      | none => (500, store)
      | some top =>
        let text := trimChars req.text
        let record : Record :=
          { id := env.newId
            text := text
            language := req.language
            prediction := hfPrediction top
            explanation := mkExplanation text env.expRand
            biasScore := mkBiasScore env.biasRand
            userId := principalId princ
            feedback := none
            metadata :=
              { ipAddress := env.ip
                userAgent := env.userAgent
                processingTime := env.processingTime
                source := "huggingface-inference-api" }
            timestamp := env.now }
        (200, store ++ [record])

/-! ## The ML-service route variant (src/unnamed/part_001 lines 53-97) -/

/-- The `prediction` field of the ML service's response body; each field may
be absent. -/
structure MlPredictionPart where
  label : Option Nat
  confidence : Option ℚ
  probabilities : Option (List ℚ)

/-- The ML service's response body (`mlResponse.data`); `prediction` may be
absent. -/
structure MlResult where
  prediction : Option MlPredictionPart

/-- Lines 55-56 and 79-87 of src/unnamed/part_001:
`label := mlResult.prediction?.label || 0` (since the default is 0, the JS
`||` on the falsy 0 coincides with `getD 0`), likewise `confidence`;
`probabilities := mlResult.prediction?.probabilities || [formula]` — note a
present array (even a degenerate one) is truthy and passes through verbatim. -/
def mlPrediction (m : MlResult) : PredOut :=
  let cls := (m.prediction.bind (fun p => p.label)).getD 0
  let conf := (m.prediction.bind (fun p => p.confidence)).getD 0
  { label := cls
    labelText := if cls = 1 then "AI-generated" else "Human-written"
    confidence := conf
    probabilities :=
      match m.prediction.bind (fun p => p.probabilities) with
      | some ps => ps
      | none =>
        [if cls = 0 then conf else 1 - conf,
         if cls = 1 then conf else 1 - conf] }

/-- `probabilities[i]` on a JS array pair (undefined coerces from a missing
index; reads inside the claims only use indices 0 and 1 of a 2-element
array, so the default never surfaces). -/
def probAt (p : PredOut) (i : Nat) : ℚ := (p.probabilities.get? i).getD 0

/-- The invariant relating a prediction's probability pair to its label and
confidence: `probabilities[label] = confidence` and
`probabilities[1-label] = 1 - confidence`. -/
def ProbConsistent (p : PredOut) : Prop :=
  probAt p p.label = p.confidence ∧ probAt p (1 - p.label) = 1 - p.confidence

/-! ## Record retrieval (src/routes/predictions.js lines 161-233) -/

/-- `Prediction.findById(id)` over the store. -/
def findRecord (store : List Record) (rid : Nat) : Option Record :=
  store.find? (fun r => r.id == rid)

inductive GetByIdResult where
  | notFound
  | accessDenied
  | ok (r : Record)
deriving DecidableEq

/-- The GET /:id handler (lines 202-224): 404 when absent; 403 when the
record has a `userId` and the requester is not that user
(`prediction.userId && (!req.user || prediction.userId.toString() !==
req.user._id.toString())`); otherwise the record. -/
def getById (store : List Record) (rid : Nat) (princ : Principal) : GetByIdResult :=
  match findRecord store rid with
  | none => .notFound
  | some r =>
    match r.userId with
    | none => .ok r
    | some owner =>
      match princ with
      | .anon => .accessDenied
      | .auth pid => if pid = owner then .ok r else .accessDenied

/-! ## History pagination (lines 161-186) -/

/-- Insert keeping timestamps non-increasing (descending). -/
def insertDescBy (r : Record) : List Record → List Record
  | [] => [r]
  | x :: xs => if x.timestamp ≤ r.timestamp then r :: x :: xs else x :: insertDescBy r xs

/-- `.sort({ timestamp: -1 })`: the store's records in non-increasing
timestamp order (modelled as an insertion sort; the claims only rely on the
output being a descending reordering). -/
def sortByTimestampDesc (l : List Record) : List Record :=
  l.foldr insertDescBy []

structure HistoryPage where
  predictions : List Record
  page : Int
  limit : Int
  total : Nat
  pages : Int

inductive HistoryResult where
  | authRequired
  | ok (h : HistoryPage)

/-- `parseInt(q) || d`: an absent/NaN query value and the falsy 0 both fall
back to the default. -/
def parseIntOr (q : Option Int) (d : Int) : Int :=
  match q with
  | none => d
  | some n => if n = 0 then d else n

/-- The GET /history handler (lines 161-186).  The `protect` middleware is
not under src/.  Modelled from the spec: "requires an authenticated
principal (`AuthRequired` if absent)" / "rejects with 401 (required-auth)";
an anonymous principal is rejected before the query runs.  The rest follows
the source: `skip = (page-1)*limit`, owner-filtered records sorted by
timestamp descending, `pages = Math.ceil(total/limit)`. -/
def getHistory (store : List Record) (princ : Principal)
    (pageQ limitQ : Option Int) : HistoryResult :=
  match princ with
  | .anon => .authRequired
  | .auth uid =>
    let page := parseIntOr pageQ 1
    let limit := parseIntOr limitQ 20
    let skip := (page - 1) * limit
    let owned := store.filter (fun r => r.userId == some uid)
    let total := owned.length
    .ok
      { predictions := ((sortByTimestampDesc owned).drop skip.toNat).take limit.toNat
        page := page
        limit := limit
        total := total
        pages := ⌈(total : ℚ) / (limit : ℚ)⌉ }

/-! ## Feedback submission (src/unnamed/part_002 lines 19-79,
src/models/Feedback.js) -/

/-- A persisted Feedback document. -/
structure FeedbackRec where
  id : Nat
  predictionId : Nat
  userId : Option Nat
  rating : Int
  correctLabel : Option Int
  comment : Option (List Char)
  feedbackType : String
deriving DecidableEq

/-- The POST /feedback request body after JSON parsing. -/
structure FeedbackBody where
  predictionId : Nat
  rating : Int
  correctLabel : Option Int
  comment : Option (List Char)
  feedbackType : Option String

/-- The validator chain (part_002 lines 19-24): `rating` an integer in
[1,5], optional `correctLabel` in {0,1}, optional `comment` of at most 1000
characters.  (`predictionId.isMongoId()` is a format check subsumed by the
abstract id type.) -/
def validFeedback (b : FeedbackBody) : Bool :=
  decide (1 ≤ b.rating ∧ b.rating ≤ 5) &&
  (match b.correctLabel with
   | none => true
   | some v => decide (0 ≤ v ∧ v ≤ 1)) &&
  (match b.comment with
   | none => true
   | some c => decide (c.length ≤ 1000))

/-- The FeedbackRec built by `Feedback.create` (part_002 lines 47-54);
`feedbackType := feedbackType || 'general'`. -/
def mkFeedbackRec (b : FeedbackBody) (princ : Principal) (fid : Nat) : FeedbackRec :=
  { id := fid
    predictionId := b.predictionId
    userId := principalId princ
    rating := b.rating
    correctLabel := b.correctLabel
    comment := b.comment
    feedbackType := b.feedbackType.getD "general" }

/-- The two collections the feedback route touches. -/
structure AppState where
  predictions : List Record
  feedbacks : List FeedbackRec

/-- The POST /feedback handler (part_002 lines 19-79) as a state
transformer: 400 on validation failure, 404 when the referenced prediction
does not exist (before any create), else create the FeedbackRec and attach
`{rating, correctLabel, comment, submittedAt}` to the referenced
prediction. -/
def submitFeedback (b : FeedbackBody) (princ : Principal) (fid : Nat) (now : Nat)
    (st : AppState) : Nat × AppState :=
  if ¬ validFeedback b then (400, st)
  else
    match findRecord st.predictions b.predictionId with
    | none => (404, st)
    | some _ =>
      let attach : FeedbackAttach :=
        { rating := b.rating
          correctLabel := b.correctLabel
          comment := b.comment
          submittedAt := now }
      (201,
        { predictions :=
            st.predictions.map
              (fun r => if r.id == b.predictionId then { r with feedback := some attach } else r)
          feedbacks := st.feedbacks ++ [mkFeedbackRec b princ fid] })

/-! ## Mongoose schema cast (src/models/User.js lines 119-230) -/

/-- Read the value at a schema path from the supplied document keys, falling
back to the schema default when the path is absent. -/
def lookupOr (l : List (String × ℚ)) (k : String) (d : ℚ) : ℚ :=
  ((l.find? (fun p => p.1 = k)).map (fun p => p.2)).getD d

/-- The `biasScore` sub-document as the schema stores it (src/models/User.js
lines 167-192): paths `genderBias`, `ethnicBias`, `religiousBias`,
`overallBias`, each defaulting to 0. -/
structure StoredBiasScore where
  genderBias : ℚ
  ethnicBias : ℚ
  religiousBias : ℚ
  overallBias : ℚ
deriving DecidableEq

/-- The key/value pairs the predict route supplies for `biasScore`
(src/routes/predictions.js lines 79-84): `gender`, `ethnic`, `religious`,
`overall`. -/
def biasOutPairs (b : BiasOut) : List (String × ℚ) :=
  [("gender", b.gender), ("ethnic", b.ethnic), ("religious", b.religious),
   ("overall", b.overall)]

/-- Mongoose's cast of a supplied `biasScore` object into the schema's
sub-document: keys not declared as paths are dropped, declared paths absent
from the input take their default 0. -/
def castBiasScore (l : List (String × ℚ)) : StoredBiasScore :=
  { genderBias := lookupOr l "genderBias" 0
    ethnicBias := lookupOr l "ethnicBias" 0
    religiousBias := lookupOr l "religiousBias" 0
    overallBias := lookupOr l "overallBias" 0 }

/-- The `explanation` sub-document as the schema stores it (src/models/User.js
lines 151-165): only `tokens`, `importances` and `method` are declared
paths — there is no `status` path. -/
structure StoredExplanation where
  tokens : List (List Char)
  importances : List ℚ
  method : String
deriving DecidableEq

/-- Mongoose's cast of the route's `explanation` object onto the schema's
declared paths: `status` is not a path and is dropped. -/
def castExplanation (e : Explanation) : StoredExplanation :=
  { tokens := e.tokens, importances := e.importances, method := e.method }

/-! ## Backend call timeout (src/routes/predictions.js lines 44-55,
src/unnamed/part_001 lines 44-51) -/

/-- The environment-supplied backend selection: URL (from `ML_SERVICE_URL`)
and, per the configuration contract, a timeout in milliseconds. -/
structure BackendConfig where
  url : String
  timeoutMs : Nat
deriving DecidableEq

inductive Wait where
  | unbounded
  | bounded (ms : Nat)
deriving DecidableEq

/-- axios's timeout semantics: `timeout: 0` means no timeout (wait
indefinitely), a positive value bounds the wait. -/
def axiosWait (t : Nat) : Wait :=
  if t = 0 then .unbounded else .bounded t

/-- The wait behaviour of the predict route's backend call: both call sites
pass the literal `timeout: 30000`; no configuration value reaches the axios
options. -/
def predictCallWait (_c : BackendConfig) : Wait :=
  axiosWait 30000

/-! ## Concrete sample data (used to instantiate the theorems) -/

def demoPrediction : PredOut :=
  { label := 1
    labelText := "AI-generated"
    confidence := 9/10
    probabilities := [1/10, 9/10] }

def demoExplanation : Explanation :=
  { tokens := []
    importances := []
    method := "simple-attribution"
    status := "inference-api-mode" }

def demoMetadata : RecMetadata :=
  { ipAddress := "127.0.0.1"
    userAgent := "curl/8"
    processingTime := 42
    source := "huggingface-inference-api" }

/-- A persisted record owned by user 7. -/
def demoOwnedRecord : Record :=
  { id := 1
    text := "Wannan labari ne".toList
    language := "ha"
    prediction := demoPrediction
    explanation := demoExplanation
    biasScore := ⟨0, 0, 0, 1/20⟩
    userId := some 7
    feedback := none
    metadata := demoMetadata
    timestamp := 100 }

def demoEnv : PredictEnv :=
  { expRand := fun _ => 1/2
    biasRand := fun _ => 1/2
    newId := 2
    processingTime := 5
    ip := "127.0.0.1"
    userAgent := "curl/8"
    now := 200 }

def demoReq : PredictReq := ⟨"Wannan labari ne".toList, "ha"⟩

def demoRefusedErr : TransportError :=
  ⟨some "ECONNREFUSED", "connect ECONNREFUSED 127.0.0.1:5000".toList⟩

def demoFeedbackBody : FeedbackBody :=
  { predictionId := 1
    rating := 5
    correctLabel := some 1
    comment := none
    feedbackType := none }

def demoState : AppState := ⟨[demoOwnedRecord], []⟩

/-! ## Helper lemmas -/

theorem mem_insertDescBy {a r : Record} {l : List Record} :
    a ∈ insertDescBy r l ↔ a = r ∨ a ∈ l := by
  induction l with
  | nil => simp [insertDescBy]
  | cons x xs ih =>
    by_cases h : x.timestamp ≤ r.timestamp
    · simp [insertDescBy, h]
    · simp [insertDescBy, h, ih]
      tauto

theorem mem_sortByTimestampDesc {a : Record} {l : List Record} :
    a ∈ sortByTimestampDesc l ↔ a ∈ l := by
  induction l with
  | nil => simp [sortByTimestampDesc]
  | cons x xs ih =>
    simp only [sortByTimestampDesc, List.foldr_cons] at *
    rw [mem_insertDescBy, ih]
    simp

theorem pairwise_insertDescBy {r : Record} {l : List Record}
    (h : l.Pairwise (fun a b => b.timestamp ≤ a.timestamp)) :
    (insertDescBy r l).Pairwise (fun a b => b.timestamp ≤ a.timestamp) := by
  induction l with
  | nil => simp [insertDescBy]
  | cons x xs ih =>
    rcases List.pairwise_cons.mp h with ⟨hx, hxs⟩
    by_cases hle : x.timestamp ≤ r.timestamp
    · simp only [insertDescBy, if_pos hle]
      refine List.pairwise_cons.mpr ⟨?_, h⟩
      intro b hb
      rcases List.mem_cons.mp hb with rfl | hb2
      · exact hle
      · exact le_trans (hx b hb2) hle
    · simp only [insertDescBy, if_neg hle]
      refine List.pairwise_cons.mpr ⟨?_, ih hxs⟩
      intro b hb
      rcases mem_insertDescBy.mp hb with rfl | hb2
      · exact le_of_lt (lt_of_not_le hle)
      · exact hx b hb2

theorem pairwise_sortByTimestampDesc (l : List Record) :
    (sortByTimestampDesc l).Pairwise (fun a b => b.timestamp ≤ a.timestamp) := by
  induction l with
  | nil => simp [sortByTimestampDesc]
  | cons x xs ih =>
    simp only [sortByTimestampDesc, List.foldr_cons] at *
    exact pairwise_insertDescBy ih

theorem findRecord_map_setFeedback (l : List Record) (pid : Nat) (r : Record)
    (fb : FeedbackAttach)
    (h : l.find? (fun x => x.id == pid) = some r) :
    (l.map (fun x => if x.id == pid then { x with feedback := some fb } else x)).find?
        (fun x => x.id == pid)
      = some { r with feedback := some fb } := by
  induction l with
  | nil => simp at h
  | cons x xs ih =>
    cases hx : (x.id == pid) with
    | false =>
      rw [List.find?_cons_of_neg _ (by simp [hx])] at h
      rw [List.map_cons, List.find?_cons_of_neg _ (by simp [hx])]
      exact ih h
    | true =>
      rw [List.find?_cons_of_pos _ (by simp [hx])] at h
      injection h with h2
      subst h2
      rw [List.map_cons, List.find?_cons_of_pos _ (by simp [hx])]
      rw [if_pos hx]

/-! ## Claim theorems -/

/-- Claim C3: a prediction request whose text is empty (or longer than 50,000
characters once trimmed) or whose language is outside {ha, yo, ig, pcm} is
answered 400 and leaves the record store unchanged; the result is the same
for every possible backend interaction (`call` is arbitrary), so no backend
call influences it and no record is persisted. -/
theorem invalid_input_rejected_without_side_effects
    (req : PredictReq) (princ : Principal) (call : BackendCall)
    (env : PredictEnv) (store : List Record)
    (h : validText req.text = false ∨ validLanguage req.language = false) :
    handlePredict req princ call env store = (400, store) := by
  have hv : (validText req.text && validLanguage req.language) = false := by
    rcases h with h | h <;> simp [h]
  simp [handlePredict, hv]

theorem invalid_input_rejected_without_side_effects_witness :
    handlePredict ⟨[], "ha"⟩ .anon (.success []) demoEnv [] = (400, []) :=
  invalid_input_rejected_without_side_effects _ _ _ _ _ (Or.inl (by decide))

/-- Claim C4: when the backend call fails, no record is persisted (the store is
returned unchanged), and the thrown error maps to the stable status codes:
`ECONNREFUSED` → 503, otherwise `ECONNABORTED` or a message containing
"timeout" → 504, and any other failure (including non-2xx HTTP errors,
which axios surfaces as thrown errors without those codes) → 500. -/
theorem backend_failure_mapping
    (req : PredictReq) (princ : Principal) (e : TransportError)
    (env : PredictEnv) (store : List Record)
    (hv : (validText req.text && validLanguage req.language) = true) :
    (handlePredict req princ (.failure e) env store).2 = store ∧
    (e.code = some "ECONNREFUSED" →
      (handlePredict req princ (.failure e) env store).1 = 503) ∧
    (e.code ≠ some "ECONNREFUSED" →
      (e.code = some "ECONNABORTED" ∨ containsSub e.message ("timeout".toList) = true) →
      (handlePredict req princ (.failure e) env store).1 = 504) ∧
    (e.code ≠ some "ECONNREFUSED" → e.code ≠ some "ECONNABORTED" →
      containsSub e.message ("timeout".toList) = false →
      (handlePredict req princ (.failure e) env store).1 = 500) := by
  have hh : handlePredict req princ (.failure e) env store = (mapPredictError e, store) := by
    simp [handlePredict, hv]
  rw [hh]
  refine ⟨rfl, ?_, ?_, ?_⟩
  · intro hc
    simp only [mapPredictError, if_pos hc]
  · intro hc habort
    simp only [mapPredictError, if_neg hc, if_pos habort]
  · intro hc habort hmsg
    have hcond : ¬(e.code = some "ECONNABORTED"
        ∨ containsSub e.message ("timeout".toList) = true) := by
      rintro (h2 | h2)
      · exact habort h2
      · rw [hmsg] at h2
        exact Bool.false_ne_true h2
    simp only [mapPredictError, if_neg hc, if_neg hcond]

theorem backend_failure_mapping_witness :
    (handlePredict demoReq .anon (.failure demoRefusedErr) demoEnv []).1 = 503 :=
  (backend_failure_mapping demoReq .anon demoRefusedErr demoEnv [] (by decide)).2.1 rfl

/-- Claim C8 counterexample: the claim says the backend call's timeout is taken
from configuration with 0 meaning an unbounded wait; but with a configured
timeout of 0 the call still waits the hardcoded bounded 30,000 ms rather
than `axiosWait 0 = unbounded`. -/
theorem timeout_config_ignored_counterexample :
    predictCallWait ⟨"http://localhost:5000", 0⟩ ≠ axiosWait 0 := by
  decide

/-- Claim C8 (amended): the predict route's backend call always uses the literal
`timeout: 30000` written at the call site; the configured timeout value has
no effect, so a configured zero cannot produce an unbounded wait. -/
theorem predict_call_timeout_constant (c : BackendConfig) :
    predictCallWait c = .bounded 30000 := rfl

/-- Claim C9: casting the predict route's `biasScore` object (keys `gender`,
`ethnic`, `religious`, `overall`) through the Prediction schema (paths
`genderBias`, `ethnicBias`, `religiousBias`, `overallBias`, default 0)
stores all four durable bias fields as the default 0, whatever bias values
the route computed — the computed scores are never durably stored, and the
statistics endpoints aggregate only these defaulted fields. -/
theorem bias_fields_stored_as_defaults (b : BiasOut) :
    castBiasScore (biasOutPairs b) = ⟨0, 0, 0, 0⟩ := rfl

/-- Claim C10: the Prediction schema's `explanation` sub-document declares only
`tokens`, `importances` and `method`; the pipeline's `status` tag is not a
schema path, so two explanations differing only in `status` (e.g. genuine
vs. synthesized) persist identically — a retrieved record cannot reveal
which one it was. -/
theorem stored_explanation_independent_of_status
    (e₁ e₂ : Explanation) (ht : e₁.tokens = e₂.tokens)
    (hi : e₁.importances = e₂.importances) (hm : e₁.method = e₂.method) :
    castExplanation e₁ = castExplanation e₂ := by
  simp [castExplanation, ht, hi, hm]

theorem stored_explanation_independent_of_status_witness :
    castExplanation ⟨[], [], "lime", "genuine"⟩
      = castExplanation ⟨[], [], "lime", "inference-api-mode"⟩ :=
  stored_explanation_independent_of_status _ _ rfl rfl rfl

/-- Claim C2 counterexample: the synthesized explanation's `method` is the
literal "simple-attribution" (src/routes/predictions.js line 74), not the
"fallback-attribution" the claim states, already on the concrete input
"ab cd" with all random draws 0. -/
theorem fallback_explanation_method_not_fallback_attribution :
    (mkExplanation ("ab cd".toList) (fun _ => 0)).method ≠ "fallback-attribution" := by
  have h : (mkExplanation ("ab cd".toList) (fun _ => 0)).method = "simple-attribution" := rfl
  rw [h]
  decide

/-- Claim C2 (amended): every fallback-synthesized explanation has
`status = "inference-api-mode"` (in particular never "genuine"),
`method = "simple-attribution"` (not "fallback-attribution"), tokens equal
to the input text split on whitespace truncated to the first 50, one
importance per token, and every importance in [0,1] (each draw
`Math.random() * 0.5 + 0.2` lies in [0.2, 0.7)). -/
theorem fallback_explanation_shape (text : List Char) (rand : Nat → ℚ)
    (hr : ∀ n, 0 ≤ rand n ∧ rand n < 1) :
    (mkExplanation text rand).status = "inference-api-mode" ∧
    (mkExplanation text rand).status ≠ "genuine" ∧
    (mkExplanation text rand).method = "simple-attribution" ∧
    (mkExplanation text rand).tokens = (splitWs text).take 50 ∧
    (mkExplanation text rand).importances.length = (mkExplanation text rand).tokens.length ∧
    ∀ x ∈ (mkExplanation text rand).importances, 0 ≤ x ∧ x ≤ 1 := by
  refine ⟨rfl, ?_, rfl, rfl, ?_, ?_⟩
  · have h : (mkExplanation text rand).status = "inference-api-mode" := rfl
    rw [h]
    decide
  · simp [mkExplanation]
  · intro x hx
    simp only [mkExplanation, List.mem_map, List.mem_range] at hx
    obtain ⟨i, _, rfl⟩ := hx
    obtain ⟨h0, h1⟩ := hr i
    constructor <;> nlinarith

theorem fallback_explanation_shape_witness :
    0 ≤ (fun _ : Nat => (1 : ℚ)/2) 0 ∧
    (mkExplanation ("ab cd".toList) (fun _ => (1 : ℚ)/2)).status ≠ "genuine" :=
  ⟨by norm_num,
   (fallback_explanation_shape ("ab cd".toList) (fun _ => (1 : ℚ)/2)
     (fun _ => by norm_num)).2.1⟩

/-- Claim C5: `getById` yields `notFound` when no record carries the id; a record
without an owner (`userId` unset) is returned to every caller, anonymous or
authenticated; a record owned by user `a` is returned to the authenticated
principal with id `a`, and every other caller (anonymous or a different
authenticated user) fails with `accessDenied`. -/
theorem getById_access_control (store : List Record) (rid : Nat) (princ : Principal) :
    (findRecord store rid = none → getById store rid princ = .notFound) ∧
    (∀ r, findRecord store rid = some r → r.userId = none →
        getById store rid princ = .ok r) ∧
    (∀ r a, findRecord store rid = some r → r.userId = some a →
        (princ = .auth a → getById store rid princ = .ok r) ∧
        (princ ≠ .auth a → getById store rid princ = .accessDenied)) := by
  refine ⟨?_, ?_, ?_⟩
  · intro h
    simp [getById, h]
  · intro r h ho
    simp [getById, h, ho]
  · intro r a h ho
    constructor
    · intro hpr
      subst hpr
      simp [getById, h, ho]
    · intro hpr
      cases princ with
      | anon => simp [getById, h, ho]
      | auth pid =>
        have hpid : pid ≠ a := fun hx => hpr (by rw [hx])
        simp [getById, h, ho, hpid]

theorem getById_access_control_witness :
    getById [demoOwnedRecord] 1 (.auth 7) = .ok demoOwnedRecord ∧
    getById [demoOwnedRecord] 1 (.auth 8) = .accessDenied ∧
    getById [demoOwnedRecord] 1 .anon = .accessDenied :=
  ⟨((getById_access_control [demoOwnedRecord] 1 (.auth 7)).2.2
      demoOwnedRecord 7 rfl rfl).1 rfl,
   ((getById_access_control [demoOwnedRecord] 1 (.auth 8)).2.2
      demoOwnedRecord 7 rfl rfl).2 (by decide),
   ((getById_access_control [demoOwnedRecord] 1 .anon).2.2
      demoOwnedRecord 7 rfl rfl).2 (by decide)⟩

/-- Claim C6: for a validated feedback submission, a `predictionId` naming no
existing record yields 404 with both collections untouched; one naming an
existing record r yields 201, appends exactly the new FeedbackRec to the
feedback collection, and sets r's `feedback` field to
`{rating, correctLabel, comment, submittedAt}` — both stores are updated. -/
theorem submitFeedback_updates_both_stores
    (b : FeedbackBody) (princ : Principal) (fid now : Nat) (st : AppState)
    (hb : validFeedback b = true) :
    (findRecord st.predictions b.predictionId = none →
        submitFeedback b princ fid now st = (404, st)) ∧
    (∀ r, findRecord st.predictions b.predictionId = some r →
        (submitFeedback b princ fid now st).1 = 201 ∧
        (submitFeedback b princ fid now st).2.feedbacks
          = st.feedbacks ++ [mkFeedbackRec b princ fid] ∧
        findRecord (submitFeedback b princ fid now st).2.predictions b.predictionId
          = some { r with feedback := some ⟨b.rating, b.correctLabel, b.comment, now⟩ }) := by
  constructor
  · intro h
    unfold submitFeedback
    rw [if_neg (fun hc => hc hb), h]
  · intro r h
    have h2 : st.predictions.find? (fun x => x.id == b.predictionId) = some r := h
    have hstep : submitFeedback b princ fid now st
        = (201,
           { predictions :=
               st.predictions.map
                 (fun x => if x.id == b.predictionId then
                     { x with feedback := some ⟨b.rating, b.correctLabel, b.comment, now⟩ }
                   else x)
             feedbacks := st.feedbacks ++ [mkFeedbackRec b princ fid] }) := by
      unfold submitFeedback
      rw [if_neg (fun hc => hc hb), h]
    refine ⟨by rw [hstep], by rw [hstep], ?_⟩
    rw [hstep]
    exact findRecord_map_setFeedback st.predictions b.predictionId r _ h2

theorem submitFeedback_updates_both_stores_witness :
    (submitFeedback demoFeedbackBody .anon 9 1234 demoState).1 = 201 :=
  (((submitFeedback_updates_both_stores demoFeedbackBody .anon 9 1234 demoState
      (by decide)).2) demoOwnedRecord rfl).1

/-- Claim C1 counterexample: on the ML-service route a backend-supplied
probabilities vector is persisted verbatim (src/unnamed/part_001 line 83).
A successful response with label 1, confidence 0.9 and probabilities
[0.9, 0.1] yields a record whose `probabilities[label]` is 0.1 ≠ 0.9, so
the claimed invariant fails. -/
theorem ml_passthrough_probabilities_inconsistent :
    ¬ ProbConsistent (mlPrediction ⟨some ⟨some 1, some (9/10), some [9/10, 1/10]⟩⟩) := by
  intro hcon
  have h1 := hcon.1
  norm_num [mlPrediction, ProbConsistent, probAt] at h1

/-- Claim C1 (amended): the probabilities/label/confidence consistency holds for
every record the Hugging Face route persists (its probabilities pair is
always synthesized from label and confidence, lines 90-97 of
src/routes/predictions.js), and on the ML-service route exactly when the
backend supplied no probabilities vector (the pair is then synthesized by
the same formula); a backend-supplied vector is persisted verbatim and need
not be consistent.  The well-formed-label hypothesis on the ML side
reflects the schema's `enum: [0,1]` on `prediction.label`
(src/models/User.js line 137), which bars other labels from persistence. -/
theorem persisted_probabilities_consistent
    (req : PredictReq) (princ : Principal) (results : List LabelScore)
    (env : PredictEnv) (store : List Record) (m : MlResult)
    (hm : m.prediction.bind (fun p => p.probabilities) = none)
    (hl : (m.prediction.bind (fun p => p.label)).getD 0 = 0
        ∨ (m.prediction.bind (fun p => p.label)).getD 0 = 1) :
    (∀ r ∈ (handlePredict req princ (.success results) env store).2,
        r ∈ store ∨ ProbConsistent r.prediction) ∧
    ProbConsistent (mlPrediction m) := by
  constructor
  · intro r hr
    by_cases hv : (validText req.text && validLanguage req.language) = true
    · cases htop : topByScore results with
      | none =>
        simp [handlePredict, hv, htop] at hr
        exact Or.inl hr
      | some top =>
        simp [handlePredict, hv, htop] at hr
        rcases hr with hr | hr
        · exact Or.inl hr
        · right
          rw [hr]
          show ProbConsistent (hfPrediction top)
          by_cases hlab : top.label = "LABEL_1"
          · simp [hfPrediction, hlab, ProbConsistent, probAt]
          · simp [hfPrediction, hlab, ProbConsistent, probAt]
    · simp [handlePredict, hv] at hr
      exact Or.inl hr
  · rcases hl with hl | hl <;>
      simp [mlPrediction, ProbConsistent, probAt, hm, hl]

theorem persisted_probabilities_consistent_witness :
    (⟨some ⟨some 1, some (9/10), none⟩⟩ : MlResult).prediction.bind
        (fun p => p.probabilities) = none ∧
    ProbConsistent (mlPrediction ⟨some ⟨some 1, some (9/10), none⟩⟩) :=
  ⟨rfl,
   (persisted_probabilities_consistent demoReq .anon [] demoEnv []
      ⟨some ⟨some 1, some (9/10), none⟩⟩ rfl (Or.inr rfl)).2⟩

/-- Claim C7: `getHistory` rejects an anonymous principal (the required-auth
middleware), and for an authenticated user with page `p ≥ 1` and page size
`s ≥ 1` the returned page is exactly the user's records sorted by creation
time descending with the first `(p-1)*s` skipped and at most `s` returned:
every returned record is owned by the user, the page is in non-increasing
timestamp order, `total` counts all the user's records, and
`pages = ⌈total/s⌉`. -/
theorem getHistory_pagination (store : List Record) (uid : Nat) (p s : Int)
    (hp : 1 ≤ p) (hs : 1 ≤ s) :
    (∀ pq lq, getHistory store .anon pq lq = .authRequired) ∧
    (∀ h, getHistory store (.auth uid) (some p) (some s) = .ok h →
        h.predictions
          = ((sortByTimestampDesc (store.filter (fun r => r.userId == some uid))).drop
              ((p - 1) * s).toNat).take s.toNat ∧
        h.predictions.length ≤ s.toNat ∧
        (∀ r ∈ h.predictions, r.userId = some uid) ∧
        h.predictions.Pairwise (fun a b => b.timestamp ≤ a.timestamp) ∧
        h.total = (store.filter (fun r => r.userId == some uid)).length ∧
        h.pages = ⌈(h.total : ℚ) / (s : ℚ)⌉) := by
  constructor
  · intro pq lq
    rfl
  · intro h heq
    have hp0 : p ≠ 0 := by omega
    have hs0 : s ≠ 0 := by omega
    simp only [getHistory, parseIntOr, if_neg hp0, if_neg hs0, HistoryResult.ok.injEq] at heq
    subst heq
    refine ⟨rfl, ?_, ?_, ?_, rfl, rfl⟩
    · exact List.length_take_le _ _
    · intro r hr
      have h1 : r ∈ sortByTimestampDesc (store.filter (fun x => x.userId == some uid)) :=
        List.drop_subset _ _ (List.take_subset _ _ hr)
      have h2 : r ∈ store.filter (fun x => x.userId == some uid) :=
        mem_sortByTimestampDesc.mp h1
      have h3 := List.of_mem_filter h2
      exact beq_iff_eq.mp h3
    · exact List.Pairwise.sublist ((List.take_sublist _ _).trans (List.drop_sublist _ _))
        (pairwise_sortByTimestampDesc _)

theorem getHistory_pagination_witness :
    getHistory [demoOwnedRecord] .anon none none = .authRequired :=
  (getHistory_pagination [demoOwnedRecord] 7 1 20 (by decide) (by decide)).1 none none

end Hata
